import Mathlib

/-!
Verification of the Bezier-curve ray intersection engine of
appleseed (src/appleseed/foundation/math/beziercurve.h).

The curve classes BezierCurve1/2/3 and the intersector
BezierCurveIntersector are embedded shallowly.  The source is a C++
template over a scalar type T (instantiated at float/double); here the
scalar is a linearly ordered field K, instantiated at ℚ for concrete
(decidable) evaluations and at ℝ for the parts that need sqrt/log
(vector norms, the facing transform, the recursion-depth bound).

Helper headers of the repository (bezier.h, aabb.h, scalar.h, matrix.h,
vector.h, minmax.h) are not part of the reviewed sources; the handful of
small functions the curve code uses from them are modelled from the
specification and marked as such in their doc comments.
-/

namespace Appleseed

variable {K : Type} [LinearOrderedField K]

/-- Three-component vector, mirroring foundation::Vector of T,3. -/
@[ext] structure Vec3 (K : Type) where
  x : K
  y : K
  z : K
deriving DecidableEq

/-- Componentwise vector addition (vector.h, modelled: standard). -/
def Vec3.add (a b : Vec3 K) : Vec3 K := ⟨a.x + b.x, a.y + b.y, a.z + b.z⟩

/-- Componentwise vector subtraction (vector.h, modelled: standard). -/
def Vec3.sub (a b : Vec3 K) : Vec3 K := ⟨a.x - b.x, a.y - b.y, a.z - b.z⟩

/-- Componentwise vector negation (vector.h, modelled: standard). -/
def Vec3.neg (a : Vec3 K) : Vec3 K := ⟨-a.x, -a.y, -a.z⟩

/-- Vector-times-scalar product (vector.h, modelled: standard). -/
def Vec3.scale (a : Vec3 K) (s : K) : Vec3 K := ⟨a.x * s, a.y * s, a.z * s⟩

instance : Add (Vec3 K) := ⟨Vec3.add⟩

instance : Sub (Vec3 K) := ⟨Vec3.sub⟩

instance : Neg (Vec3 K) := ⟨Vec3.neg⟩

instance : HMul (Vec3 K) K (Vec3 K) := ⟨Vec3.scale⟩

/-- Componentwise minimum of two vectors (minmax.h, modelled: standard). -/
def Vec3.cmin (a b : Vec3 K) : Vec3 K := ⟨min a.x b.x, min a.y b.y, min a.z b.z⟩

/-- Componentwise maximum of two vectors (minmax.h, modelled: standard). -/
def Vec3.cmax (a b : Vec3 K) : Vec3 K := ⟨max a.x b.x, max a.y b.y, max a.z b.z⟩

/-- Axis-aligned bounding box, mirroring foundation::AABB of T,3. -/
@[ext] structure AABB3 (K : Type) where
  min : Vec3 K
  max : Vec3 K
deriving DecidableEq

/-- Modelled from the spec: AABB::insert (aabb.h is not in src/) extends a
box to contain one more point, by componentwise min/max. -/
def AABB3.insert (b : AABB3 K) (p : Vec3 K) : AABB3 K :=
  ⟨Vec3.cmin b.min p, Vec3.cmax b.max p⟩

/-- Modelled from the spec: AABB::grow (aabb.h is not in src/) enlarges the
box by a vector on every side; the spec calls this expansion by
max_radius/2. -/
def AABB3.grow (b : AABB3 K) (v : Vec3 K) : AABB3 K :=
  ⟨b.min - v, b.max + v⟩

/-- Modelled from the spec: AABB::robust_grow (aabb.h is not in src/) grows
the box by a small robustness epsilon on each axis to absorb rounding
error.  The exact scaling rule of the original is unavailable; the spec
only requires a growth, modelled here as an absolute enlargement by eps. -/
def AABB3.robust_grow (b : AABB3 K) (eps : K) : AABB3 K :=
  b.grow ⟨eps, eps, eps⟩

/-- Membership of a point in a box: all six slab inequalities. -/
def AABB3.containsPoint (b : AABB3 K) (p : Vec3 K) : Prop :=
  b.min.x ≤ p.x ∧ p.x ≤ b.max.x ∧
  b.min.y ≤ p.y ∧ p.y ≤ b.max.y ∧
  b.min.z ≤ p.z ∧ p.z ≤ b.max.z

instance (b : AABB3 K) (p : Vec3 K) : Decidable (b.containsPoint p) := by
  unfold AABB3.containsPoint; infer_instance

/-- Row-major 4x4 matrix, mirroring foundation::Matrix of T,4,4; field aij
is the flat source index 4*i+j (matrix[0] = a00, ..., matrix[15] = a33). -/
@[ext] structure Mat4 (K : Type) where
  a00 : K
  a01 : K
  a02 : K
  a03 : K
  a10 : K
  a11 : K
  a12 : K
  a13 : K
  a20 : K
  a21 : K
  a22 : K
  a23 : K
  a30 : K
  a31 : K
  a32 : K
  a33 : K
deriving DecidableEq

/-- Identity matrix (matrix.h, modelled: standard). -/
def idMat4 : Mat4 K := ⟨1, 0, 0, 0, 0, 1, 0, 0, 0, 0, 1, 0, 0, 0, 0, 1⟩

/-- Ray with origin and direction, mirroring foundation::Ray of T,3. -/
structure Ray3 (K : Type) where
  m_org : Vec3 K
  m_dir : Vec3 K
deriving DecidableEq

/-- Modelled from the spec: clamp (scalar.h is not in src/) restricts a
value to an interval. -/
def clamp (x lo hi : K) : K := min (max x lo) hi

/-- Modelled from the spec: saturate (scalar.h is not in src/) clamps to
the unit interval, used for the closest-approach parameter w. -/
def saturate (x : K) : K := clamp x 0 1

/-- Dot product over the x and y components only
(BezierCurveIntersector::dotxy, beziercurve.h lines 501-504). -/
def dotxy (a b : Vec3 K) : K := a.x * b.x + a.y * b.y

/-- Modelled from the spec: interpolate_bezier1 (bezier.h is not in src/),
the linear Bernstein blend. -/
def interpolate_bezier1 (a b t : K) : K := (1 - t) * a + t * b

/-- Modelled from the spec: interpolate_bezier2 (bezier.h is not in src/),
the quadratic Bernstein blend. -/
def interpolate_bezier2 (a b c t : K) : K :=
  (1 - t) * (1 - t) * a + 2 * (1 - t) * t * b + t * t * c

/-- Modelled from the spec: interpolate_bezier3 (bezier.h is not in src/),
the cubic Bernstein blend. -/
def interpolate_bezier3 (a b c d t : K) : K :=
  (1 - t) * (1 - t) * (1 - t) * a + 3 * ((1 - t) * (1 - t)) * t * b +
    3 * (1 - t) * (t * t) * c + t * t * t * d

/-- Vector version of the linear Bernstein blend, componentwise. -/
def interpolate_bezier1v (a b : Vec3 K) (t : K) : Vec3 K :=
  ⟨interpolate_bezier1 a.x b.x t, interpolate_bezier1 a.y b.y t,
    interpolate_bezier1 a.z b.z t⟩

/-- Vector version of the quadratic Bernstein blend, componentwise. -/
def interpolate_bezier2v (a b c : Vec3 K) (t : K) : Vec3 K :=
  ⟨interpolate_bezier2 a.x b.x c.x t, interpolate_bezier2 a.y b.y c.y t,
    interpolate_bezier2 a.z b.z c.z t⟩

/-- Vector version of the cubic Bernstein blend, componentwise. -/
def interpolate_bezier3v (a b c d : Vec3 K) (t : K) : Vec3 K :=
  ⟨interpolate_bezier3 a.x b.x c.x d.x t, interpolate_bezier3 a.y b.y c.y d.y t,
    interpolate_bezier3 a.z b.z c.z d.z t⟩

/-- Perspective-correct point transform
(BezierCurveBase::transform_point, beziercurve.h lines 184-193): the point
is extended to homogeneous coordinates, multiplied by the matrix, and
divided by the resulting w (asserted nonzero in the source). -/
def transform_point (m : Mat4 K) (p : Vec3 K) : Vec3 K :=
  let xw := m.a30 * p.x + m.a31 * p.y + m.a32 * p.z + m.a33
  let rcp_w := 1 / xw
  ⟨(m.a00 * p.x + m.a01 * p.y + m.a02 * p.z + m.a03) * rcp_w,
    (m.a10 * p.x + m.a11 * p.y + m.a12 * p.z + m.a13) * rcp_w,
    (m.a20 * p.x + m.a21 * p.y + m.a22 * p.z + m.a23) * rcp_w⟩

/-- Maximum of two widths, the unrolled loop of
BezierCurveBase::compute_max_width (beziercurve.h lines 195-201) at N = 1. -/
def compute_max_width1 (w0 w1 : K) : K := max w0 w1

/-- Maximum of three widths (compute_max_width at N = 2). -/
def compute_max_width2 (w0 w1 w2 : K) : K := max (max w0 w1) w2

/-- Maximum of four widths (compute_max_width at N = 3). -/
def compute_max_width3 (w0 w1 w2 w3 : K) : K := max (max (max w0 w1) w2) w3

/-- Robustness epsilon used by compute_bbox (beziercurve.h line 211). -/
def bboxEps : K := 1 / 10000

/-- BezierCurveBase::compute_bbox (beziercurve.h lines 203-212) unrolled at
N = 1: box of the control points, grown by max_width/2, then robust-grown
by 1e-4. -/
def compute_bbox1 (p0 p1 : Vec3 K) (mw : K) : AABB3 K :=
  ((AABB3.insert ⟨p0, p0⟩ p1).grow
      ⟨mw * (1 / 2), mw * (1 / 2), mw * (1 / 2)⟩).robust_grow bboxEps

/-- compute_bbox unrolled at N = 2. -/
def compute_bbox2 (p0 p1 p2 : Vec3 K) (mw : K) : AABB3 K :=
  (((AABB3.insert ⟨p0, p0⟩ p1).insert p2).grow
      ⟨mw * (1 / 2), mw * (1 / 2), mw * (1 / 2)⟩).robust_grow bboxEps

/-- compute_bbox unrolled at N = 3. -/
def compute_bbox3 (p0 p1 p2 p3 : Vec3 K) (mw : K) : AABB3 K :=
  ((((AABB3.insert ⟨p0, p0⟩ p1).insert p2).insert p3).grow
      ⟨mw * (1 / 2), mw * (1 / 2), mw * (1 / 2)⟩).robust_grow bboxEps

/-- Degree-1 Bezier curve (BezierCurve1, beziercurve.h lines 220-283):
two control points, two widths, and the cached max_width and bbox fields
of the base class. -/
structure BezierCurve1 (K : Type) where
  p0 : Vec3 K
  p1 : Vec3 K
  w0 : K
  w1 : K
  max_width : K
  bbox : AABB3 K
deriving DecidableEq

/-- Degree-2 Bezier curve (BezierCurve2, beziercurve.h lines 290-367). -/
structure BezierCurve2 (K : Type) where
  p0 : Vec3 K
  p1 : Vec3 K
  p2 : Vec3 K
  w0 : K
  w1 : K
  w2 : K
  max_width : K
  bbox : AABB3 K
deriving DecidableEq

/-- Degree-3 Bezier curve (BezierCurve3, beziercurve.h lines 374-471). -/
structure BezierCurve3 (K : Type) where
  p0 : Vec3 K
  p1 : Vec3 K
  p2 : Vec3 K
  p3 : Vec3 K
  w0 : K
  w1 : K
  w2 : K
  w3 : K
  max_width : K
  bbox : AABB3 K
deriving DecidableEq

/-- Points-and-widths constructor at degree 1 (beziercurve.h lines
95-106): stores the data and computes max_width and bbox. -/
def mkCurve1 (p0 p1 : Vec3 K) (w0 w1 : K) : BezierCurve1 K :=
  let mw := compute_max_width1 w0 w1
  ⟨p0, p1, w0, w1, mw, compute_bbox1 p0 p1 mw⟩

/-- Points-and-widths constructor at degree 2. -/
def mkCurve2 (p0 p1 p2 : Vec3 K) (w0 w1 w2 : K) : BezierCurve2 K :=
  let mw := compute_max_width2 w0 w1 w2
  ⟨p0, p1, p2, w0, w1, w2, mw, compute_bbox2 p0 p1 p2 mw⟩

/-- Points-and-widths constructor at degree 3. -/
def mkCurve3 (p0 p1 p2 p3 : Vec3 K) (w0 w1 w2 w3 : K) : BezierCurve3 K :=
  let mw := compute_max_width3 w0 w1 w2 w3
  ⟨p0, p1, p2, p3, w0, w1, w2, w3, mw, compute_bbox3 p0 p1 p2 p3 mw⟩

/-- Transform constructor at degree 1 (beziercurve.h lines 108-118):
every control point goes through transform_point, the widths are copied,
and max_width and bbox are recomputed. -/
def BezierCurve1.xform (c : BezierCurve1 K) (m : Mat4 K) : BezierCurve1 K :=
  mkCurve1 (transform_point m c.p0) (transform_point m c.p1) c.w0 c.w1

/-- Transform constructor at degree 2. -/
def BezierCurve2.xform (c : BezierCurve2 K) (m : Mat4 K) : BezierCurve2 K :=
  mkCurve2 (transform_point m c.p0) (transform_point m c.p1)
    (transform_point m c.p2) c.w0 c.w1 c.w2

/-- Transform constructor at degree 3. -/
def BezierCurve3.xform (c : BezierCurve3 K) (m : Mat4 K) : BezierCurve3 K :=
  mkCurve3 (transform_point m c.p0) (transform_point m c.p1)
    (transform_point m c.p2) (transform_point m c.p3) c.w0 c.w1 c.w2 c.w3

/-- BezierCurve1::evaluate_point (beziercurve.h lines 250-253). -/
def BezierCurve1.evaluate_point (c : BezierCurve1 K) (t : K) : Vec3 K :=
  interpolate_bezier1v c.p0 c.p1 t

/-- BezierCurve1::evaluate_width (beziercurve.h lines 255-258). -/
def BezierCurve1.evaluate_width (c : BezierCurve1 K) (t : K) : K :=
  interpolate_bezier1 c.w0 c.w1 t

/-- BezierCurve2::evaluate_point (beziercurve.h lines 320-328). -/
def BezierCurve2.evaluate_point (c : BezierCurve2 K) (t : K) : Vec3 K :=
  interpolate_bezier2v c.p0 c.p1 c.p2 t

/-- BezierCurve2::evaluate_width (beziercurve.h lines 330-338). -/
def BezierCurve2.evaluate_width (c : BezierCurve2 K) (t : K) : K :=
  interpolate_bezier2 c.w0 c.w1 c.w2 t

/-- BezierCurve3::evaluate_point (beziercurve.h lines 404-413). -/
def BezierCurve3.evaluate_point (c : BezierCurve3 K) (t : K) : Vec3 K :=
  interpolate_bezier3v c.p0 c.p1 c.p2 c.p3 t

/-- BezierCurve3::evaluate_width (beziercurve.h lines 415-424). -/
def BezierCurve3.evaluate_width (c : BezierCurve3 K) (t : K) : K :=
  interpolate_bezier3 c.w0 c.w1 c.w2 c.w3 t

/-- BezierCurve1::split (beziercurve.h lines 260-282): the two halves of
the line at the midpoint; each child recomputes max_width and bbox. -/
def BezierCurve1.split (c : BezierCurve1 K) : BezierCurve1 K × BezierCurve1 K :=
  let midpt := c.evaluate_point (1 / 2)
  let midw := c.evaluate_width (1 / 2)
  (mkCurve1 c.p0 midpt c.w0 midw, mkCurve1 midpt c.p1 midw c.w1)

/-- BezierCurve2::split (beziercurve.h lines 340-366): de Casteljau
subdivision at t = 1/2. -/
def BezierCurve2.split (c : BezierCurve2 K) : BezierCurve2 K × BezierCurve2 K :=
  let midpt := c.evaluate_point (1 / 2)
  let midw := c.evaluate_width (1 / 2)
  (mkCurve2 c.p0 ((c.p0 + c.p1) * ((1 : K) / 2)) midpt
      c.w0 ((c.w0 + c.w1) * (1 / 2)) midw,
    mkCurve2 midpt ((c.p1 + c.p2) * ((1 : K) / 2)) c.p2
      midw ((c.w1 + c.w2) * (1 / 2)) c.w2)

/-- BezierCurve3::split (beziercurve.h lines 426-470): de Casteljau
subdivision at t = 1/2 through the intermediate midpoints mc/mw. -/
def BezierCurve3.split (c : BezierCurve3 K) : BezierCurve3 K × BezierCurve3 K :=
  let midpt := c.evaluate_point (1 / 2)
  let midw := c.evaluate_width (1 / 2)
  let mc0 := (c.p0 + c.p1) * ((1 : K) / 2)
  let mc1 := (c.p1 + c.p2) * ((1 : K) / 2)
  let mc2 := (c.p2 + c.p3) * ((1 : K) / 2)
  let mw0 := (c.w0 + c.w1) * (1 / 2)
  let mw1 := (c.w1 + c.w2) * (1 / 2)
  let mw2 := (c.w2 + c.w3) * (1 / 2)
  (mkCurve3 c.p0 mc0 ((mc0 + mc1) * ((1 : K) / 2)) midpt
      c.w0 mw0 ((mw0 + mw1) * (1 / 2)) midw,
    mkCurve3 midpt ((mc1 + mc2) * ((1 : K) / 2)) mc2 c.p3
      midw ((mw1 + mw2) * (1 / 2)) mw2 c.w3)

/-- Constant RcpLog4 from compute_max_recursion_depth (beziercurve.h line
168): the reciprocal of the natural log of 4, as the source writes it. -/
noncomputable def RcpLog4 : ℝ := 7213475204444817 / 10000000000000000

/-- Base-4 logarithm as compute_max_recursion_depth computes it
(beziercurve.h line 169): natural log times the RcpLog4 constant. -/
noncomputable def log4 (x : ℝ) : ℝ := Real.log x * RcpLog4

/-- Modelled from the spec: truncate of scalar.h (not in src/) casts a
nonnegative real toward zero; on the clamped nonnegative argument this is
the floor. -/
noncomputable def truncate (x : ℝ) : ℕ := (Int.floor x).toNat

/-- BezierCurveBase::compute_max_recursion_depth (beziercurve.h lines
147-173) at N = 1: the N < 2 early return, always 0. -/
def BezierCurve1.compute_max_recursion_depth (_c : BezierCurve1 ℝ) : ℕ := 0

/-- compute_max_recursion_depth at N = 2: one interior triple, flatness
l0, tolerance max_width/20, clamp of the base-4 log to 0..5, truncated. -/
noncomputable def BezierCurve2.compute_max_recursion_depth (c : BezierCurve2 ℝ) : ℕ :=
  let l0 := max |c.p0.x - 2 * c.p1.x + c.p2.x| |c.p0.y - 2 * c.p1.y + c.p2.y|
  let epsilon := c.max_width * (1 / 20)
  let value := Real.sqrt 2 * 2 * (2 - 1) * l0 / (8 * epsilon)
  truncate (clamp (log4 value) 0 5)

/-- compute_max_recursion_depth at N = 3: two interior triples. -/
noncomputable def BezierCurve3.compute_max_recursion_depth (c : BezierCurve3 ℝ) : ℕ :=
  let l0 :=
    max (max (max |c.p0.x - 2 * c.p1.x + c.p2.x| |c.p0.y - 2 * c.p1.y + c.p2.y|)
          |c.p1.x - 2 * c.p2.x + c.p3.x|)
      |c.p1.y - 2 * c.p2.y + c.p3.y|
  let epsilon := c.max_width * (1 / 20)
  let value := Real.sqrt 2 * 3 * (3 - 1) * l0 / (8 * epsilon)
  truncate (clamp (log4 value) 0 5)

/-- Euclidean vector norm (vector.h, modelled: standard), needs ℝ. -/
noncomputable def vnorm (v : Vec3 ℝ) : ℝ := Real.sqrt (v.x * v.x + v.y * v.y + v.z * v.z)

/-- Normalization by the Euclidean norm (vector.h, modelled: standard). -/
noncomputable def vnormalize (v : Vec3 ℝ) : Vec3 ℝ :=
  let n := vnorm v
  ⟨v.x / n, v.y / n, v.z / n⟩

/-- Half pi, the source constant HalfPi of scalar.h (modelled). -/
noncomputable def HalfPi : ℝ := Real.pi / 2

/-- Modelled from the spec: Matrix4::rotation_x (matrix.h is not in src/),
the standard rotation about the x axis. -/
noncomputable def rotation_x (angle : ℝ) : Mat4 ℝ :=
  ⟨1, 0, 0, 0,
    0, Real.cos angle, -Real.sin angle, 0,
    0, Real.sin angle, Real.cos angle, 0,
    0, 0, 0, 1⟩

/-- Overwrite of entries 3, 7 and 11 with the translation column computed
from the rotation rows and the ray origin (beziercurve.h lines 528-531). -/
noncomputable def apply_ray_translation (m : Mat4 ℝ) (org : Vec3 ℝ) : Mat4 ℝ :=
  { m with
      a03 := -(m.a00 * org.x + m.a01 * org.y + m.a02 * org.z)
      a13 := -(m.a10 * org.x + m.a11 * org.y + m.a12 * org.z)
      a23 := -(m.a20 * org.x + m.a21 * org.y + m.a22 * org.z) }

/-- BezierCurveIntersector::make_facing_curve_transform (beziercurve.h
lines 507-532): rotation aligning the normalized ray direction with +z,
with a fixed rotation about x by plus or minus 90 degrees when the x/z
projection of the direction is shorter than 1e-6, followed by the ray
origin translation. -/
noncomputable def make_facing_curve_transform (ray : Ray3 ℝ) : Mat4 ℝ :=
  let rdir := vnormalize ray.m_dir
  let d := Real.sqrt (rdir.x * rdir.x + rdir.z * rdir.z)
  let rot : Mat4 ℝ :=
    if d ≥ 1 / 1000000 then
      let rcp_d := 1 / d
      ⟨rdir.z * rcp_d, 0, -rdir.x * rcp_d, 0,
        -(rdir.x * rdir.y) * rcp_d, d, -(rdir.y * rdir.z) * rcp_d, 0,
        rdir.x, rdir.y, rdir.z, 0,
        0, 0, 0, 1⟩
    else
      rotation_x (if rdir.y > 0 then HalfPi else -HalfPi)
  apply_ray_translation rot ray.m_org

/-- Duck-typed interface of the BezierCurveType template parameter of
BezierCurveIntersector: exactly the members the intersector calls. -/
structure CurveOps (K : Type) (C : Type) where
  degree : ℕ
  get_control_point : C → ℕ → Vec3 K
  get_max_width : C → K
  get_bbox : C → AABB3 K
  evaluate_point : C → K → Vec3 K
  evaluate_width : C → K → K
  split : C → C × C
  xform : C → Mat4 K → C

/-- CurveOps instance for degree-1 curves. -/
def ops1 : CurveOps K (BezierCurve1 K) :=
  ⟨1,
    fun c i => if i = 0 then c.p0 else c.p1,
    BezierCurve1.max_width, BezierCurve1.bbox,
    BezierCurve1.evaluate_point, BezierCurve1.evaluate_width,
    BezierCurve1.split, BezierCurve1.xform⟩

/-- CurveOps instance for degree-2 curves. -/
def ops2 : CurveOps K (BezierCurve2 K) :=
  ⟨2,
    fun c i => if i = 0 then c.p0 else if i = 1 then c.p1 else c.p2,
    BezierCurve2.max_width, BezierCurve2.bbox,
    BezierCurve2.evaluate_point, BezierCurve2.evaluate_width,
    BezierCurve2.split, BezierCurve2.xform⟩

/-- CurveOps instance for degree-3 curves. -/
def ops3 : CurveOps K (BezierCurve3 K) :=
  ⟨3,
    fun c i => if i = 0 then c.p0 else if i = 1 then c.p1 else if i = 2 then c.p2 else c.p3,
    BezierCurve3.max_width, BezierCurve3.bbox,
    BezierCurve3.evaluate_point, BezierCurve3.evaluate_width,
    BezierCurve3.split, BezierCurve3.xform⟩

/-- BezierCurveIntersector::converge (beziercurve.h lines 553-636).  The
in-out reference t of the source becomes the last component of the result
pair; the boolean is the return value.  The depth budget is the fuel of
the structural recursion, exactly as in the source, where every recursive
call receives depth - 1 and the depth == 0 branch performs the flat
line-segment intersection. -/
def converge {C : Type} (ops : CurveOps K C) :
    ℕ → C → C → Mat4 K → K → K → K → Bool × K
  | 0, original_curve, curve, xfm, v0, vn, t =>
    let bbox := ops.get_bbox curve
    let half_width := ops.get_max_width curve * (1 / 2)
    if bbox.min.z ≥ t ∨ bbox.max.z ≤ 1 / 1000000 ∨
        bbox.min.x ≥ half_width ∨ bbox.max.x ≤ -half_width ∨
        bbox.min.y ≥ half_width ∨ bbox.max.y ≤ -half_width then
      (false, t)
    else
      let cp0 := ops.get_control_point curve 0
      let cpn := ops.get_control_point curve ops.degree
      let dir := cpn - cp0
      let dp0 := ops.get_control_point curve 1 - cp0
      let dp0 := if dotxy dir dp0 < 0 then -dp0 else dp0
      if dotxy dp0 cp0 > 0 then (false, t)
      else
        let dpn := cpn - ops.get_control_point curve (ops.degree - 1)
        let dpn := if dotxy dir dpn < 0 then -dpn else dpn
        if dotxy dpn cpn < 0 then (false, t)
        else
          let wd := dir.x * dir.x + dir.y * dir.y
          if wd < 1 / 1000000 then (false, t)
          else
            let w := saturate (-(cp0.x * dir.x + cp0.y * dir.y) / wd)
            let v := v0 * (1 - w) + vn * w
            let orig_p := ops.evaluate_point original_curve v
            let p := transform_point xfm orig_p
            if p.z ≤ 1 / 1000000 ∨ t < p.z then (false, t)
            else
              let half_width := (1 / 2) * ops.evaluate_width curve w
              if p.x * p.x + p.y * p.y ≥ half_width * half_width then (false, t)
              else (true, p.z)
  | d + 1, original_curve, curve, xfm, v0, vn, t =>
    let bbox := ops.get_bbox curve
    let half_width := ops.get_max_width curve * (1 / 2)
    if bbox.min.z ≥ t ∨ bbox.max.z ≤ 1 / 1000000 ∨
        bbox.min.x ≥ half_width ∨ bbox.max.x ≤ -half_width ∨
        bbox.min.y ≥ half_width ∨ bbox.max.y ≤ -half_width then
      (false, t)
    else
      let cs := ops.split curve
      let vm := (v0 + vn) * (1 / 2)
      let r1 := converge ops d original_curve cs.1 xfm v0 vm t
      if r1.1 then r1 else converge ops d original_curve cs.2 xfm vm vn r1.2

/-- Number of recursion levels actually entered by converge below the
given call: 0 when the call culls or runs the flat base case, one more
than the deepest child otherwise, following the same short-circuit
control flow as converge. -/
def converge_depth_used {C : Type} (ops : CurveOps K C) :
    ℕ → C → C → Mat4 K → K → K → K → ℕ
  | 0, _, _, _, _, _, _ => 0
  | d + 1, original_curve, curve, xfm, v0, vn, t =>
    let bbox := ops.get_bbox curve
    let half_width := ops.get_max_width curve * (1 / 2)
    if bbox.min.z ≥ t ∨ bbox.max.z ≤ 1 / 1000000 ∨
        bbox.min.x ≥ half_width ∨ bbox.max.x ≤ -half_width ∨
        bbox.min.y ≥ half_width ∨ bbox.max.y ≤ -half_width then
      0
    else
      let cs := ops.split curve
      let vm := (v0 + vn) * (1 / 2)
      let r1 := converge ops d original_curve cs.1 xfm v0 vm t
      let u1 := converge_depth_used ops d original_curve cs.1 xfm v0 vm t
      if r1.1 then 1 + u1
      else 1 + max u1 (converge_depth_used ops d original_curve cs.2 xfm vm vn r1.2)

/-- BezierCurveIntersector::intersect (beziercurve.h lines 534-550):
transform the curve into the ray-aligned frame, take the recursion depth
of the transformed curve, run converge over the unit parameter range, and
on success rescale the hit by the ray direction norm.  The in-out t is
again the second component of the result. -/
noncomputable def intersect {C : Type} (ops : CurveOps ℝ C) (cmrd : C → ℕ)
    (curve : C) (ray : Ray3 ℝ) (xfm : Mat4 ℝ) (t : ℝ) : Bool × ℝ :=
  let xfm_curve := ops.xform curve xfm
  let depth := cmrd xfm_curve
  let r := converge ops depth curve xfm_curve xfm 0 1 t
  if r.1 then (true, r.2 / vnorm ray.m_dir) else (false, r.2)

/-- Well-formedness of the cached fields of a degree-1 curve: widths are
nonnegative (source assertion) and max_width and bbox hold the values of
compute_max_width and compute_bbox for the stored data. -/
def WF1 (c : BezierCurve1 K) : Prop :=
  0 ≤ c.w0 ∧ 0 ≤ c.w1 ∧
  c.max_width = compute_max_width1 c.w0 c.w1 ∧
  c.bbox = compute_bbox1 c.p0 c.p1 c.max_width

/-- Well-formedness of the cached fields of a degree-2 curve. -/
def WF2 (c : BezierCurve2 K) : Prop :=
  0 ≤ c.w0 ∧ 0 ≤ c.w1 ∧ 0 ≤ c.w2 ∧
  c.max_width = compute_max_width2 c.w0 c.w1 c.w2 ∧
  c.bbox = compute_bbox2 c.p0 c.p1 c.p2 c.max_width

/-- Well-formedness of the cached fields of a degree-3 curve. -/
def WF3 (c : BezierCurve3 K) : Prop :=
  0 ≤ c.w0 ∧ 0 ≤ c.w1 ∧ 0 ≤ c.w2 ∧ 0 ≤ c.w3 ∧
  c.max_width = compute_max_width3 c.w0 c.w1 c.w2 c.w3 ∧
  c.bbox = compute_bbox3 c.p0 c.p1 c.p2 c.p3 c.max_width

/-- Sign-corrected start tangent of the depth-0 branch of converge
(beziercurve.h lines 590-592). -/
def base_dp0 {C : Type} (ops : CurveOps K C) (c : C) : Vec3 K :=
  let cp0 := ops.get_control_point c 0
  let cpn := ops.get_control_point c ops.degree
  let dir := cpn - cp0
  let dp0 := ops.get_control_point c 1 - cp0
  if dotxy dir dp0 < 0 then -dp0 else dp0

/-- Sign-corrected end tangent of the depth-0 branch of converge
(beziercurve.h lines 597-599). -/
def base_dpn {C : Type} (ops : CurveOps K C) (c : C) : Vec3 K :=
  let cp0 := ops.get_control_point c 0
  let cpn := ops.get_control_point c ops.degree
  let dir := cpn - cp0
  let dpn := cpn - ops.get_control_point c (ops.degree - 1)
  if dotxy dir dpn < 0 then -dpn else dpn

/-- Decision taken by the depth-0 branch of converge once the tangent and
degenerate-segment gates have passed, as C3 describes it after amendment:
w is the saturated closest-approach parameter, v maps w into the parent
range, p is the original curve evaluated at v and then frame-transformed,
and the candidate is rejected when p.z is at most 1e-6 or strictly beyond
the current best t, and otherwise accepted exactly when the squared
planar distance is below the squared half width taken from the
transformed sub-curve. -/
def base_case_decision {C : Type} (ops : CurveOps K C) (oc c : C)
    (xfm : Mat4 K) (v0 vn t : K) : Bool × K :=
  let cp0 := ops.get_control_point c 0
  let cpn := ops.get_control_point c ops.degree
  let dir := cpn - cp0
  let wd := dir.x * dir.x + dir.y * dir.y
  let w := saturate (-(cp0.x * dir.x + cp0.y * dir.y) / wd)
  let v := v0 * (1 - w) + vn * w
  let orig_p := ops.evaluate_point oc v
  let p := transform_point xfm orig_p
  if p.z ≤ 1 / 1000000 ∨ t < p.z then (false, t)
  else
    let half_width := (1 / 2) * ops.evaluate_width c w
    if p.x * p.x + p.y * p.y ≥ half_width * half_width then (false, t)
    else (true, p.z)

/-- Decision of the depth-0 branch exactly as claim C3 states it: reject
when the depth p.z is non-positive or not closer than the current best t,
otherwise accept exactly when the squared planar distance is below the
squared half width. -/
def claimC3_base_case_decision {C : Type} (ops : CurveOps K C) (oc c : C)
    (xfm : Mat4 K) (v0 vn t : K) : Bool × K :=
  let cp0 := ops.get_control_point c 0
  let cpn := ops.get_control_point c ops.degree
  let dir := cpn - cp0
  let wd := dir.x * dir.x + dir.y * dir.y
  let w := saturate (-(cp0.x * dir.x + cp0.y * dir.y) / wd)
  let v := v0 * (1 - w) + vn * w
  let orig_p := ops.evaluate_point oc v
  let p := transform_point xfm orig_p
  if p.z ≤ 0 ∨ ¬p.z < t then (false, t)
  else
    let half_width := (1 / 2) * ops.evaluate_width c w
    if p.x * p.x + p.y * p.y < half_width * half_width then (true, p.z)
    else (false, t)

/-- Flatness bound of C4, written from the claim: maximum over the
interior control-point triples of the absolute second difference, taken
over the x and y components, at degree 2 (a single triple). -/
noncomputable def claim_linf2 (c : BezierCurve2 ℝ) : ℝ :=
  max |c.p0.x - 2 * c.p1.x + c.p2.x| |c.p0.y - 2 * c.p1.y + c.p2.y|

/-- Flatness bound of C4 at degree 3 (two interior triples). -/
noncomputable def claim_linf3 (c : BezierCurve3 ℝ) : ℝ :=
  max (max |c.p0.x - 2 * c.p1.x + c.p2.x| |c.p0.y - 2 * c.p1.y + c.p2.y|)
    (max |c.p1.x - 2 * c.p2.x + c.p3.x| |c.p1.y - 2 * c.p2.y + c.p3.y|)

/-- Depth formula of C4, written from the claim: clamp of the base-4
logarithm of sqrt(2) N (N-1) Linf / (8 eps) to 0..5, truncated toward
zero, with eps = max_radius / 20. -/
noncomputable def claim_depth_formula (n : ℕ) (linf mw : ℝ) : ℕ :=
  truncate (clamp (log4 (Real.sqrt 2 * n * ((n : ℝ) - 1) * linf / (8 * (mw / 20)))) 0 5)

@[simp] theorem Vec3.add_def (a b : Vec3 K) :
    a + b = ⟨a.x + b.x, a.y + b.y, a.z + b.z⟩ := rfl

@[simp] theorem Vec3.sub_def (a b : Vec3 K) :
    a - b = ⟨a.x - b.x, a.y - b.y, a.z - b.z⟩ := rfl

@[simp] theorem Vec3.neg_def (a : Vec3 K) : -a = ⟨-a.x, -a.y, -a.z⟩ := rfl

@[simp] theorem Vec3.scale_def (a : Vec3 K) (s : K) :
    a * s = ⟨a.x * s, a.y * s, a.z * s⟩ := rfl

theorem truncate_le_five {x : ℝ} (h : x ≤ 5) : truncate x ≤ 5 := by
  unfold truncate
  have h2 : (⌊x⌋ : ℤ) ≤ 5 := by
    have := Int.floor_le_floor h
    simpa using this
  omega

/-- C1.  Split exactness: for every curve of degree 1, 2 or 3 and every
parameter t in the stated half interval, the left child of split
reproduces the parent at 2t and the right child reproduces it at 2t-1.
In the exact-arithmetic embedding the identities hold as equalities. -/
theorem C1_split_exactness :
    (∀ (c : BezierCurve1 K) (t : K),
      (0 ≤ t → t ≤ 1 / 2 →
        (c.split).1.evaluate_point (2 * t) = c.evaluate_point t) ∧
      (1 / 2 ≤ t → t ≤ 1 →
        (c.split).2.evaluate_point (2 * t - 1) = c.evaluate_point t)) ∧
    (∀ (c : BezierCurve2 K) (t : K),
      (0 ≤ t → t ≤ 1 / 2 →
        (c.split).1.evaluate_point (2 * t) = c.evaluate_point t) ∧
      (1 / 2 ≤ t → t ≤ 1 →
        (c.split).2.evaluate_point (2 * t - 1) = c.evaluate_point t)) ∧
    (∀ (c : BezierCurve3 K) (t : K),
      (0 ≤ t → t ≤ 1 / 2 →
        (c.split).1.evaluate_point (2 * t) = c.evaluate_point t) ∧
      (1 / 2 ≤ t → t ≤ 1 →
        (c.split).2.evaluate_point (2 * t - 1) = c.evaluate_point t)) := by
  refine ⟨fun c t => ⟨fun _ _ => ?_, fun _ _ => ?_⟩,
    fun c t => ⟨fun _ _ => ?_, fun _ _ => ?_⟩,
    fun c t => ⟨fun _ _ => ?_, fun _ _ => ?_⟩⟩ <;>
    · ext <;>
      · simp only [BezierCurve1.split, BezierCurve1.evaluate_point,
          BezierCurve2.split, BezierCurve2.evaluate_point,
          BezierCurve3.split, BezierCurve3.evaluate_point,
          mkCurve1, mkCurve2, mkCurve3,
          interpolate_bezier1v, interpolate_bezier2v, interpolate_bezier3v,
          interpolate_bezier1, interpolate_bezier2, interpolate_bezier3,
          Vec3.add_def, Vec3.scale_def]
        ring

/-- Witness for C1 at a concrete rational curve and parameter. -/
theorem C1_split_exactness_witness :
    ((mkCurve1 (K := ℚ) ⟨0, 0, 0⟩ ⟨1, 2, 3⟩ 1 2).split.1.evaluate_point (2 * (1 / 4))
        = (mkCurve1 (K := ℚ) ⟨0, 0, 0⟩ ⟨1, 2, 3⟩ 1 2).evaluate_point (1 / 4)) :=
  (C1_split_exactness.1 _ _).1 (by norm_num) (by norm_num)

/-- C4.  Recursion depth bound: degree-1 curves always give 0, and at
degrees 2 and 3 the result equals the claimed clamp/truncate formula with
eps = max_radius/20 and the second-difference flatness bound, and is
always at most 5.  The base-4 logarithm is the one the source computes
(natural log times the double constant RcpLog4). -/
theorem C4_recursion_depth :
    (∀ c : BezierCurve1 ℝ, c.compute_max_recursion_depth = 0) ∧
    (∀ c : BezierCurve2 ℝ,
      c.compute_max_recursion_depth
          = claim_depth_formula 2 (claim_linf2 c) c.max_width ∧
        c.compute_max_recursion_depth ≤ 5) ∧
    (∀ c : BezierCurve3 ℝ,
      c.compute_max_recursion_depth
          = claim_depth_formula 3 (claim_linf3 c) c.max_width ∧
        c.compute_max_recursion_depth ≤ 5) := by
  refine ⟨fun _ => rfl, fun c => ⟨?_, ?_⟩, fun c => ⟨?_, ?_⟩⟩
  · unfold BezierCurve2.compute_max_recursion_depth claim_depth_formula claim_linf2
    have harg :
        Real.sqrt 2 * 2 * (2 - 1)
              * (max |c.p0.x - 2 * c.p1.x + c.p2.x| |c.p0.y - 2 * c.p1.y + c.p2.y|)
              / (8 * (c.max_width * (1 / 20)))
          = Real.sqrt 2 * (2 : ℕ) * ((2 : ℕ) - 1 : ℝ)
              * (max |c.p0.x - 2 * c.p1.x + c.p2.x| |c.p0.y - 2 * c.p1.y + c.p2.y|)
              / (8 * (c.max_width / 20)) := by
      push_cast
      ring_nf
    exact congrArg (fun x : ℝ => truncate (clamp (log4 x) 0 5)) harg
  · exact truncate_le_five (min_le_right _ _)
  · unfold BezierCurve3.compute_max_recursion_depth claim_depth_formula claim_linf3
    have harg :
        Real.sqrt 2 * 3 * (3 - 1)
              * (max (max (max |c.p0.x - 2 * c.p1.x + c.p2.x| |c.p0.y - 2 * c.p1.y + c.p2.y|)
                    |c.p1.x - 2 * c.p2.x + c.p3.x|)
                  |c.p1.y - 2 * c.p2.y + c.p3.y|)
              / (8 * (c.max_width * (1 / 20)))
          = Real.sqrt 2 * (3 : ℕ) * ((3 : ℕ) - 1 : ℝ)
              * (max (max |c.p0.x - 2 * c.p1.x + c.p2.x| |c.p0.y - 2 * c.p1.y + c.p2.y|)
                  (max |c.p1.x - 2 * c.p2.x + c.p3.x| |c.p1.y - 2 * c.p2.y + c.p3.y|))
              / (8 * (c.max_width / 20)) := by
      rw [max_assoc]
      push_cast
      ring_nf
    exact congrArg (fun x : ℝ => truncate (clamp (log4 x) 0 5)) harg
  · exact truncate_le_five (min_le_right _ _)

theorem converge_eq_false_snd {C : Type} (ops : CurveOps K C) :
    ∀ (d : ℕ) (oc c : C) (xfm : Mat4 K) (v0 vn t : K) (r : Bool × K),
      converge ops d oc c xfm v0 vn t = r → r.1 = false → r.2 = t := by
  intro d
  induction d with
  | zero =>
    intro oc c xfm v0 vn t r h hf
    simp only [converge] at h
    repeat' split at h
    all_goals first
      | (subst h; rfl)
      | (subst h; simp at hf)
  | succ d ih =>
    intro oc c xfm v0 vn t r h hf
    simp only [converge] at h
    split at h
    · subst h; rfl
    · split at h
      · rename_i hr1
        subst h
        rw [hf] at hr1
        exact Bool.noConfusion hr1
      · rename_i hr1
        subst h
        have hr1f :
            (converge ops d oc (ops.split c).1 xfm v0 ((v0 + vn) * (1 / 2)) t).1 = false := by
          simpa using hr1
        rw [ih _ _ _ _ _ _ _ rfl hf]
        exact ih _ _ _ _ _ _ _ rfl hr1f

theorem converge_false_snd {C : Type} (ops : CurveOps K C)
    (d : ℕ) (oc c : C) (xfm : Mat4 K) (v0 vn t : K)
    (h : (converge ops d oc c xfm v0 vn t).1 = false) :
    (converge ops d oc c xfm v0 vn t).2 = t :=
  converge_eq_false_snd ops d oc c xfm v0 vn t _ rfl h

theorem converge_depth_used_le {C : Type} (ops : CurveOps K C) :
    ∀ (d : ℕ) (oc c : C) (xfm : Mat4 K) (v0 vn t : K),
      converge_depth_used ops d oc c xfm v0 vn t ≤ d := by
  intro d
  induction d with
  | zero => intro _ _ _ _ _ _; exact Nat.le_refl 0
  | succ d ih =>
    intro oc c xfm v0 vn t
    simp only [converge_depth_used]
    split_ifs with hcull hr1
    · exact Nat.zero_le _
    · have h1 := ih oc (ops.split c).1 xfm v0 ((v0 + vn) * (1 / 2)) t
      omega
    · have h1 := ih oc (ops.split c).1 xfm v0 ((v0 + vn) * (1 / 2)) t
      have h2 := ih oc (ops.split c).2 xfm ((v0 + vn) * (1 / 2)) vn
        (converge ops d oc (ops.split c).1 xfm v0 ((v0 + vn) * (1 / 2)) t).2
      have h3 := max_le h1 h2
      omega

/-- C6.  Bounded recursion and termination: converge is total by
construction (its budget is the fuel of a structural recursion, decreased
by exactly one on each recursive call and stopping the splitting at 0);
the number of recursion levels it actually enters never exceeds the
budget; and compute_max_recursion_depth, the budget intersect passes for
the transformed curve, is at most 5 for every degree. -/
theorem C6_bounded_recursion :
    (∀ {C : Type} (ops : CurveOps K C) (d : ℕ) (oc c : C) (xfm : Mat4 K) (v0 vn t : K),
        converge_depth_used ops d oc c xfm v0 vn t ≤ d) ∧
    (∀ c : BezierCurve1 ℝ, c.compute_max_recursion_depth ≤ 5) ∧
    (∀ c : BezierCurve2 ℝ, c.compute_max_recursion_depth ≤ 5) ∧
    (∀ c : BezierCurve3 ℝ, c.compute_max_recursion_depth ≤ 5) := by
  refine ⟨fun ops d oc c xfm v0 vn t => converge_depth_used_le ops d oc c xfm v0 vn t,
    fun _ => Nat.zero_le 5, fun c => ?_, fun c => ?_⟩
  · exact truncate_le_five (min_le_right _ _)
  · exact truncate_le_five (min_le_right _ _)

/-- C9.  Miss atomicity: whenever converge or intersect reports no hit,
the in-out hit parameter (the second component of the result) is exactly
the value passed in; it is written only on the success path. -/
theorem C9_miss_atomicity :
    (∀ {C : Type} (ops : CurveOps K C) (d : ℕ) (oc c : C) (xfm : Mat4 K) (v0 vn t : K),
        (converge ops d oc c xfm v0 vn t).1 = false →
        (converge ops d oc c xfm v0 vn t).2 = t) ∧
    (∀ {C : Type} (ops : CurveOps ℝ C) (cmrd : C → ℕ) (curve : C) (ray : Ray3 ℝ)
        (xfm : Mat4 ℝ) (t : ℝ),
        (intersect ops cmrd curve ray xfm t).1 = false →
        (intersect ops cmrd curve ray xfm t).2 = t) := by
  constructor
  · intro C ops d oc c xfm v0 vn t h
    exact converge_false_snd ops d oc c xfm v0 vn t h
  · intro C ops cmrd curve ray xfm t h
    by_cases hr :
        (converge ops (cmrd (ops.xform curve xfm)) curve (ops.xform curve xfm) xfm 0 1 t).1 = true
    · simp only [intersect, hr, if_true] at h
      exact Bool.noConfusion h
    · have hrf :
          (converge ops (cmrd (ops.xform curve xfm)) curve (ops.xform curve xfm) xfm 0 1 t).1
            = false := by simpa using hr
      simp only [intersect, hrf, Bool.false_eq_true, if_false]
      exact converge_false_snd ops _ curve _ xfm 0 1 t hrf

/-- Witness for C9 at a concrete rational input: a curve lying behind the
ray origin is culled, converge reports false and t is preserved. -/
theorem C9_miss_atomicity_witness :
    (converge (K := ℚ) ops1 0 (mkCurve1 ⟨0, 0, -5⟩ ⟨1, 0, -5⟩ (1 / 5) (1 / 5))
        (mkCurve1 ⟨0, 0, -5⟩ ⟨1, 0, -5⟩ (1 / 5) (1 / 5)) idMat4 0 1 9).2 = 9 :=
  C9_miss_atomicity.1 ops1 0 _ _ idMat4 0 1 9 (by
    simp only [converge, ops1, mkCurve1, compute_max_width1, compute_bbox1,
      AABB3.insert, AABB3.grow, AABB3.robust_grow, bboxEps,
      Vec3.cmin, Vec3.cmax, Vec3.add_def, Vec3.sub_def]
    norm_num)

/-- C7.  Transform constructor effect: transform_point performs the
homogeneous divide by the fourth component, the transformed curve holds
exactly the transformed control points, the untouched widths, and freshly
recomputed max_width and bbox; the source curve is a separate value that
the constructor only reads. -/
theorem C7_transform_constructor :
    (∀ (m : Mat4 K) (p : Vec3 K),
        m.a30 * p.x + m.a31 * p.y + m.a32 * p.z + m.a33 ≠ 0 →
        transform_point m p =
          ⟨(m.a00 * p.x + m.a01 * p.y + m.a02 * p.z + m.a03)
              / (m.a30 * p.x + m.a31 * p.y + m.a32 * p.z + m.a33),
            (m.a10 * p.x + m.a11 * p.y + m.a12 * p.z + m.a13)
              / (m.a30 * p.x + m.a31 * p.y + m.a32 * p.z + m.a33),
            (m.a20 * p.x + m.a21 * p.y + m.a22 * p.z + m.a23)
              / (m.a30 * p.x + m.a31 * p.y + m.a32 * p.z + m.a33)⟩) ∧
    (∀ (c : BezierCurve1 K) (m : Mat4 K),
        (c.xform m).p0 = transform_point m c.p0 ∧
        (c.xform m).p1 = transform_point m c.p1 ∧
        (c.xform m).w0 = c.w0 ∧ (c.xform m).w1 = c.w1 ∧
        (c.xform m).max_width = compute_max_width1 c.w0 c.w1 ∧
        (c.xform m).bbox =
          compute_bbox1 (transform_point m c.p0) (transform_point m c.p1)
            (compute_max_width1 c.w0 c.w1)) ∧
    (∀ (c : BezierCurve2 K) (m : Mat4 K),
        (c.xform m).p0 = transform_point m c.p0 ∧
        (c.xform m).p1 = transform_point m c.p1 ∧
        (c.xform m).p2 = transform_point m c.p2 ∧
        (c.xform m).w0 = c.w0 ∧ (c.xform m).w1 = c.w1 ∧ (c.xform m).w2 = c.w2 ∧
        (c.xform m).max_width = compute_max_width2 c.w0 c.w1 c.w2 ∧
        (c.xform m).bbox =
          compute_bbox2 (transform_point m c.p0) (transform_point m c.p1)
            (transform_point m c.p2) (compute_max_width2 c.w0 c.w1 c.w2)) ∧
    (∀ (c : BezierCurve3 K) (m : Mat4 K),
        (c.xform m).p0 = transform_point m c.p0 ∧
        (c.xform m).p1 = transform_point m c.p1 ∧
        (c.xform m).p2 = transform_point m c.p2 ∧
        (c.xform m).p3 = transform_point m c.p3 ∧
        (c.xform m).w0 = c.w0 ∧ (c.xform m).w1 = c.w1 ∧
        (c.xform m).w2 = c.w2 ∧ (c.xform m).w3 = c.w3 ∧
        (c.xform m).max_width = compute_max_width3 c.w0 c.w1 c.w2 c.w3 ∧
        (c.xform m).bbox =
          compute_bbox3 (transform_point m c.p0) (transform_point m c.p1)
            (transform_point m c.p2) (transform_point m c.p3)
            (compute_max_width3 c.w0 c.w1 c.w2 c.w3)) := by
  refine ⟨fun m p _ => ?_,
    fun c m => ⟨rfl, rfl, rfl, rfl, rfl, rfl⟩,
    fun c m => ⟨rfl, rfl, rfl, rfl, rfl, rfl, rfl, rfl⟩,
    fun c m => ⟨rfl, rfl, rfl, rfl, rfl, rfl, rfl, rfl, rfl, rfl⟩⟩
  simp only [transform_point]
  ext <;> ring

/-- Witness for C7: the homogeneous divide at the identity matrix and a
concrete rational point, where the fourth component is 1. -/
theorem C7_transform_constructor_witness :
    transform_point (K := ℚ) idMat4 ⟨1, 2, 3⟩ =
      ⟨(idMat4.a00 * 1 + idMat4.a01 * 2 + idMat4.a02 * 3 + idMat4.a03)
          / ((idMat4 : Mat4 ℚ).a30 * 1 + idMat4.a31 * 2 + idMat4.a32 * 3 + idMat4.a33),
        (idMat4.a10 * 1 + idMat4.a11 * 2 + idMat4.a12 * 3 + idMat4.a13)
          / ((idMat4 : Mat4 ℚ).a30 * 1 + idMat4.a31 * 2 + idMat4.a32 * 3 + idMat4.a33),
        (idMat4.a20 * 1 + idMat4.a21 * 2 + idMat4.a22 * 3 + idMat4.a23)
          / ((idMat4 : Mat4 ℚ).a30 * 1 + idMat4.a31 * 2 + idMat4.a32 * 3 + idMat4.a33)⟩ :=
  C7_transform_constructor.1 idMat4 ⟨1, 2, 3⟩ (by norm_num [idMat4])

/-- C10.  Determinism: intersect is a pure function of the curve, the
ray, the frame transform and the incoming t; two runs on identical inputs
produce identical results.  The embedding is side-effect-free because the
source routine touches no state outside its arguments. -/
theorem C10_intersect_deterministic :
    ∀ {C : Type} (ops : CurveOps ℝ C) (cmrd : C → ℕ) (curve : C) (ray : Ray3 ℝ)
      (xfm : Mat4 ℝ) (t : ℝ) (r1 r2 : Bool × ℝ),
      intersect ops cmrd curve ray xfm t = r1 →
      intersect ops cmrd curve ray xfm t = r2 → r1 = r2 := by
  intro C ops cmrd curve ray xfm t r1 r2 h1 h2
  rw [← h1, ← h2]

/-- Witness for C10 at a concrete curve, ray and transform. -/
theorem C10_intersect_deterministic_witness :
    intersect ops1 BezierCurve1.compute_max_recursion_depth
        (mkCurve1 ⟨-1, 0, 5⟩ ⟨1, 0, 5⟩ (1 / 5) (1 / 5))
        ⟨⟨0, 0, 0⟩, ⟨0, 0, 1⟩⟩ idMat4 1000 =
      intersect ops1 BezierCurve1.compute_max_recursion_depth
        (mkCurve1 ⟨-1, 0, 5⟩ ⟨1, 0, 5⟩ (1 / 5) (1 / 5))
        ⟨⟨0, 0, 0⟩, ⟨0, 0, 1⟩⟩ idMat4 1000 :=
  C10_intersect_deterministic ops1 BezierCurve1.compute_max_recursion_depth
    (mkCurve1 ⟨-1, 0, 5⟩ ⟨1, 0, 5⟩ (1 / 5) (1 / 5))
    ⟨⟨0, 0, 0⟩, ⟨0, 0, 1⟩⟩ idMat4 1000 _ _ rfl rfl

theorem bez1_ge {a b t lo : K} (ha : lo ≤ a) (hb : lo ≤ b)
    (h0 : 0 ≤ t) (h1 : t ≤ 1) : lo ≤ interpolate_bezier1 a b t := by
  unfold interpolate_bezier1
  nlinarith [mul_nonneg (by linarith : (0 : K) ≤ 1 - t) (by linarith : (0 : K) ≤ a - lo),
    mul_nonneg h0 (by linarith : (0 : K) ≤ b - lo)]

theorem bez1_le {a b t hi : K} (ha : a ≤ hi) (hb : b ≤ hi)
    (h0 : 0 ≤ t) (h1 : t ≤ 1) : interpolate_bezier1 a b t ≤ hi := by
  unfold interpolate_bezier1
  nlinarith [mul_nonneg (by linarith : (0 : K) ≤ 1 - t) (by linarith : (0 : K) ≤ hi - a),
    mul_nonneg h0 (by linarith : (0 : K) ≤ hi - b)]

theorem bez2_ge {a b c t lo : K} (ha : lo ≤ a) (hb : lo ≤ b) (hc : lo ≤ c)
    (h0 : 0 ≤ t) (h1 : t ≤ 1) : lo ≤ interpolate_bezier2 a b c t := by
  unfold interpolate_bezier2
  have hs : (0 : K) ≤ 1 - t := by linarith
  nlinarith [mul_nonneg (mul_nonneg hs hs) (by linarith : (0 : K) ≤ a - lo),
    mul_nonneg (mul_nonneg hs h0) (by linarith : (0 : K) ≤ b - lo),
    mul_nonneg (mul_nonneg h0 h0) (by linarith : (0 : K) ≤ c - lo)]

theorem bez2_le {a b c t hi : K} (ha : a ≤ hi) (hb : b ≤ hi) (hc : c ≤ hi)
    (h0 : 0 ≤ t) (h1 : t ≤ 1) : interpolate_bezier2 a b c t ≤ hi := by
  unfold interpolate_bezier2
  have hs : (0 : K) ≤ 1 - t := by linarith
  nlinarith [mul_nonneg (mul_nonneg hs hs) (by linarith : (0 : K) ≤ hi - a),
    mul_nonneg (mul_nonneg hs h0) (by linarith : (0 : K) ≤ hi - b),
    mul_nonneg (mul_nonneg h0 h0) (by linarith : (0 : K) ≤ hi - c)]

theorem bez3_ge {a b c d t lo : K} (ha : lo ≤ a) (hb : lo ≤ b) (hc : lo ≤ c)
    (hd : lo ≤ d) (h0 : 0 ≤ t) (h1 : t ≤ 1) : lo ≤ interpolate_bezier3 a b c d t := by
  unfold interpolate_bezier3
  have hs : (0 : K) ≤ 1 - t := by linarith
  nlinarith [mul_nonneg (mul_nonneg (mul_nonneg hs hs) hs) (by linarith : (0 : K) ≤ a - lo),
    mul_nonneg (mul_nonneg (mul_nonneg hs hs) h0) (by linarith : (0 : K) ≤ b - lo),
    mul_nonneg (mul_nonneg (mul_nonneg hs h0) h0) (by linarith : (0 : K) ≤ c - lo),
    mul_nonneg (mul_nonneg (mul_nonneg h0 h0) h0) (by linarith : (0 : K) ≤ d - lo)]

theorem bez3_le {a b c d t hi : K} (ha : a ≤ hi) (hb : b ≤ hi) (hc : c ≤ hi)
    (hd : d ≤ hi) (h0 : 0 ≤ t) (h1 : t ≤ 1) : interpolate_bezier3 a b c d t ≤ hi := by
  unfold interpolate_bezier3
  have hs : (0 : K) ≤ 1 - t := by linarith
  nlinarith [mul_nonneg (mul_nonneg (mul_nonneg hs hs) hs) (by linarith : (0 : K) ≤ hi - a),
    mul_nonneg (mul_nonneg (mul_nonneg hs hs) h0) (by linarith : (0 : K) ≤ hi - b),
    mul_nonneg (mul_nonneg (mul_nonneg hs h0) h0) (by linarith : (0 : K) ≤ hi - c),
    mul_nonneg (mul_nonneg (mul_nonneg h0 h0) h0) (by linarith : (0 : K) ≤ hi - d)]

theorem wf1_contains (c : BezierCurve1 K) (h : WF1 c) (t : K)
    (h0 : 0 ≤ t) (h1 : t ≤ 1) : c.bbox.containsPoint (c.evaluate_point t) := by
  obtain ⟨hw0, hw1, hmw, hbb⟩ := h
  have hmw0 : 0 ≤ c.max_width := by
    rw [hmw]; exact le_trans hw0 (le_max_left _ _)
  rw [hbb]
  unfold compute_bbox1 AABB3.robust_grow AABB3.grow AABB3.insert bboxEps
  unfold BezierCurve1.evaluate_point interpolate_bezier1v
  simp only [Vec3.sub_def, Vec3.add_def, Vec3.cmin, Vec3.cmax, AABB3.containsPoint]
  refine ⟨?_, ?_, ?_, ?_, ?_, ?_⟩
  · have := bez1_ge (min_le_left c.p0.x c.p1.x) (min_le_right c.p0.x c.p1.x) h0 h1
    linarith
  · have := bez1_le (le_max_left c.p0.x c.p1.x) (le_max_right c.p0.x c.p1.x) h0 h1
    linarith
  · have := bez1_ge (min_le_left c.p0.y c.p1.y) (min_le_right c.p0.y c.p1.y) h0 h1
    linarith
  · have := bez1_le (le_max_left c.p0.y c.p1.y) (le_max_right c.p0.y c.p1.y) h0 h1
    linarith
  · have := bez1_ge (min_le_left c.p0.z c.p1.z) (min_le_right c.p0.z c.p1.z) h0 h1
    linarith
  · have := bez1_le (le_max_left c.p0.z c.p1.z) (le_max_right c.p0.z c.p1.z) h0 h1
    linarith

theorem wf2_contains (c : BezierCurve2 K) (h : WF2 c) (t : K)
    (h0 : 0 ≤ t) (h1 : t ≤ 1) : c.bbox.containsPoint (c.evaluate_point t) := by
  obtain ⟨hw0, hw1, hw2, hmw, hbb⟩ := h
  have hmw0 : 0 ≤ c.max_width := by
    rw [hmw]
    exact le_trans hw0 (le_trans (le_max_left _ _) (le_max_left _ _))
  rw [hbb]
  unfold compute_bbox2 AABB3.robust_grow AABB3.grow AABB3.insert bboxEps
  unfold BezierCurve2.evaluate_point interpolate_bezier2v
  simp only [Vec3.sub_def, Vec3.add_def, Vec3.cmin, Vec3.cmax, AABB3.containsPoint]
  refine ⟨?_, ?_, ?_, ?_, ?_, ?_⟩
  · have := bez2_ge (le_trans (min_le_left _ c.p2.x) (min_le_left c.p0.x c.p1.x))
      (le_trans (min_le_left _ c.p2.x) (min_le_right c.p0.x c.p1.x))
      (min_le_right (min c.p0.x c.p1.x) c.p2.x) h0 h1
    linarith
  · have := bez2_le (le_trans (le_max_left c.p0.x c.p1.x) (le_max_left _ c.p2.x))
      (le_trans (le_max_right c.p0.x c.p1.x) (le_max_left _ c.p2.x))
      (le_max_right (max c.p0.x c.p1.x) c.p2.x) h0 h1
    linarith
  · have := bez2_ge (le_trans (min_le_left _ c.p2.y) (min_le_left c.p0.y c.p1.y))
      (le_trans (min_le_left _ c.p2.y) (min_le_right c.p0.y c.p1.y))
      (min_le_right (min c.p0.y c.p1.y) c.p2.y) h0 h1
    linarith
  · have := bez2_le (le_trans (le_max_left c.p0.y c.p1.y) (le_max_left _ c.p2.y))
      (le_trans (le_max_right c.p0.y c.p1.y) (le_max_left _ c.p2.y))
      (le_max_right (max c.p0.y c.p1.y) c.p2.y) h0 h1
    linarith
  · have := bez2_ge (le_trans (min_le_left _ c.p2.z) (min_le_left c.p0.z c.p1.z))
      (le_trans (min_le_left _ c.p2.z) (min_le_right c.p0.z c.p1.z))
      (min_le_right (min c.p0.z c.p1.z) c.p2.z) h0 h1
    linarith
  · have := bez2_le (le_trans (le_max_left c.p0.z c.p1.z) (le_max_left _ c.p2.z))
      (le_trans (le_max_right c.p0.z c.p1.z) (le_max_left _ c.p2.z))
      (le_max_right (max c.p0.z c.p1.z) c.p2.z) h0 h1
    linarith

theorem wf3_contains (c : BezierCurve3 K) (h : WF3 c) (t : K)
    (h0 : 0 ≤ t) (h1 : t ≤ 1) : c.bbox.containsPoint (c.evaluate_point t) := by
  obtain ⟨hw0, hw1, hw2, hw3, hmw, hbb⟩ := h
  have hmw0 : 0 ≤ c.max_width := by
    rw [hmw]
    exact le_trans hw0
      (le_trans (le_max_left _ _) (le_trans (le_max_left _ _) (le_max_left _ _)))
  rw [hbb]
  unfold compute_bbox3 AABB3.robust_grow AABB3.grow AABB3.insert bboxEps
  unfold BezierCurve3.evaluate_point interpolate_bezier3v
  simp only [Vec3.sub_def, Vec3.add_def, Vec3.cmin, Vec3.cmax, AABB3.containsPoint]
  have m1x : min (min (min c.p0.x c.p1.x) c.p2.x) c.p3.x ≤ c.p0.x :=
    le_trans (min_le_left _ _) (le_trans (min_le_left _ _) (min_le_left _ _))
  have m2x : min (min (min c.p0.x c.p1.x) c.p2.x) c.p3.x ≤ c.p1.x :=
    le_trans (min_le_left _ _) (le_trans (min_le_left _ _) (min_le_right _ _))
  have m3x : min (min (min c.p0.x c.p1.x) c.p2.x) c.p3.x ≤ c.p2.x :=
    le_trans (min_le_left _ _) (min_le_right _ _)
  have m4x : min (min (min c.p0.x c.p1.x) c.p2.x) c.p3.x ≤ c.p3.x := min_le_right _ _
  have M1x : c.p0.x ≤ max (max (max c.p0.x c.p1.x) c.p2.x) c.p3.x :=
    le_trans (le_trans (le_max_left _ _) (le_max_left _ _)) (le_max_left _ _)
  have M2x : c.p1.x ≤ max (max (max c.p0.x c.p1.x) c.p2.x) c.p3.x :=
    le_trans (le_trans (le_max_right _ _) (le_max_left _ _)) (le_max_left _ _)
  have M3x : c.p2.x ≤ max (max (max c.p0.x c.p1.x) c.p2.x) c.p3.x :=
    le_trans (le_max_right _ _) (le_max_left _ _)
  have M4x : c.p3.x ≤ max (max (max c.p0.x c.p1.x) c.p2.x) c.p3.x := le_max_right _ _
  have m1y : min (min (min c.p0.y c.p1.y) c.p2.y) c.p3.y ≤ c.p0.y :=
    le_trans (min_le_left _ _) (le_trans (min_le_left _ _) (min_le_left _ _))
  have m2y : min (min (min c.p0.y c.p1.y) c.p2.y) c.p3.y ≤ c.p1.y :=
    le_trans (min_le_left _ _) (le_trans (min_le_left _ _) (min_le_right _ _))
  have m3y : min (min (min c.p0.y c.p1.y) c.p2.y) c.p3.y ≤ c.p2.y :=
    le_trans (min_le_left _ _) (min_le_right _ _)
  have m4y : min (min (min c.p0.y c.p1.y) c.p2.y) c.p3.y ≤ c.p3.y := min_le_right _ _
  have M1y : c.p0.y ≤ max (max (max c.p0.y c.p1.y) c.p2.y) c.p3.y :=
    le_trans (le_trans (le_max_left _ _) (le_max_left _ _)) (le_max_left _ _)
  have M2y : c.p1.y ≤ max (max (max c.p0.y c.p1.y) c.p2.y) c.p3.y :=
    le_trans (le_trans (le_max_right _ _) (le_max_left _ _)) (le_max_left _ _)
  have M3y : c.p2.y ≤ max (max (max c.p0.y c.p1.y) c.p2.y) c.p3.y :=
    le_trans (le_max_right _ _) (le_max_left _ _)
  have M4y : c.p3.y ≤ max (max (max c.p0.y c.p1.y) c.p2.y) c.p3.y := le_max_right _ _
  have m1z : min (min (min c.p0.z c.p1.z) c.p2.z) c.p3.z ≤ c.p0.z :=
    le_trans (min_le_left _ _) (le_trans (min_le_left _ _) (min_le_left _ _))
  have m2z : min (min (min c.p0.z c.p1.z) c.p2.z) c.p3.z ≤ c.p1.z :=
    le_trans (min_le_left _ _) (le_trans (min_le_left _ _) (min_le_right _ _))
  have m3z : min (min (min c.p0.z c.p1.z) c.p2.z) c.p3.z ≤ c.p2.z :=
    le_trans (min_le_left _ _) (min_le_right _ _)
  have m4z : min (min (min c.p0.z c.p1.z) c.p2.z) c.p3.z ≤ c.p3.z := min_le_right _ _
  have M1z : c.p0.z ≤ max (max (max c.p0.z c.p1.z) c.p2.z) c.p3.z :=
    le_trans (le_trans (le_max_left _ _) (le_max_left _ _)) (le_max_left _ _)
  have M2z : c.p1.z ≤ max (max (max c.p0.z c.p1.z) c.p2.z) c.p3.z :=
    le_trans (le_trans (le_max_right _ _) (le_max_left _ _)) (le_max_left _ _)
  have M3z : c.p2.z ≤ max (max (max c.p0.z c.p1.z) c.p2.z) c.p3.z :=
    le_trans (le_max_right _ _) (le_max_left _ _)
  have M4z : c.p3.z ≤ max (max (max c.p0.z c.p1.z) c.p2.z) c.p3.z := le_max_right _ _
  refine ⟨?_, ?_, ?_, ?_, ?_, ?_⟩
  · have := bez3_ge m1x m2x m3x m4x h0 h1
    linarith
  · have := bez3_le M1x M2x M3x M4x h0 h1
    linarith
  · have := bez3_ge m1y m2y m3y m4y h0 h1
    linarith
  · have := bez3_le M1y M2y M3y M4y h0 h1
    linarith
  · have := bez3_ge m1z m2z m3z m4z h0 h1
    linarith
  · have := bez3_le M1z M2z M3z M4z h0 h1
    linarith

/-- C5.  Bounding-box invariant: the constructors, the transform
constructor and split always produce curves whose cached bbox is exactly
the control-point box grown by max_width/2 and then by the robustness
epsilon (so the cache is never stale), and every curve with that
invariant contains all its evaluated points for t in the unit interval
inside the cached bbox. -/
theorem C5_bbox_invariant :
    ((∀ (p0 p1 : Vec3 K) (w0 w1 : K),
        0 ≤ w0 → 0 ≤ w1 → WF1 (mkCurve1 p0 p1 w0 w1)) ∧
      (∀ (c : BezierCurve1 K) (m : Mat4 K), WF1 c → WF1 (c.xform m)) ∧
      (∀ c : BezierCurve1 K, WF1 c → WF1 (c.split).1 ∧ WF1 (c.split).2) ∧
      (∀ (c : BezierCurve1 K) (t : K), WF1 c → 0 ≤ t → t ≤ 1 →
        c.bbox.containsPoint (c.evaluate_point t))) ∧
    ((∀ (p0 p1 p2 : Vec3 K) (w0 w1 w2 : K),
        0 ≤ w0 → 0 ≤ w1 → 0 ≤ w2 → WF2 (mkCurve2 p0 p1 p2 w0 w1 w2)) ∧
      (∀ (c : BezierCurve2 K) (m : Mat4 K), WF2 c → WF2 (c.xform m)) ∧
      (∀ c : BezierCurve2 K, WF2 c → WF2 (c.split).1 ∧ WF2 (c.split).2) ∧
      (∀ (c : BezierCurve2 K) (t : K), WF2 c → 0 ≤ t → t ≤ 1 →
        c.bbox.containsPoint (c.evaluate_point t))) ∧
    ((∀ (p0 p1 p2 p3 : Vec3 K) (w0 w1 w2 w3 : K),
        0 ≤ w0 → 0 ≤ w1 → 0 ≤ w2 → 0 ≤ w3 → WF3 (mkCurve3 p0 p1 p2 p3 w0 w1 w2 w3)) ∧
      (∀ (c : BezierCurve3 K) (m : Mat4 K), WF3 c → WF3 (c.xform m)) ∧
      (∀ c : BezierCurve3 K, WF3 c → WF3 (c.split).1 ∧ WF3 (c.split).2) ∧
      (∀ (c : BezierCurve3 K) (t : K), WF3 c → 0 ≤ t → t ≤ 1 →
        c.bbox.containsPoint (c.evaluate_point t))) := by
  refine ⟨⟨fun p0 p1 w0 w1 h0 h1 => ⟨h0, h1, rfl, rfl⟩,
      fun c m h => ⟨h.1, h.2.1, rfl, rfl⟩, fun c h => ?_,
      fun c t h h0 h1 => wf1_contains c h t h0 h1⟩,
    ⟨fun p0 p1 p2 w0 w1 w2 h0 h1 h2 => ⟨h0, h1, h2, rfl, rfl⟩,
      fun c m h => ⟨h.1, h.2.1, h.2.2.1, rfl, rfl⟩, fun c h => ?_,
      fun c t h h0 h1 => wf2_contains c h t h0 h1⟩,
    ⟨fun p0 p1 p2 p3 w0 w1 w2 w3 h0 h1 h2 h3 => ⟨h0, h1, h2, h3, rfl, rfl⟩,
      fun c m h => ⟨h.1, h.2.1, h.2.2.1, h.2.2.2.1, rfl, rfl⟩, fun c h => ?_,
      fun c t h h0 h1 => wf3_contains c h t h0 h1⟩⟩
  · obtain ⟨hw0, hw1, -, -⟩ := h
    have hm : 0 ≤ c.evaluate_width (1 / 2) :=
      bez1_ge hw0 hw1 (by norm_num) (by norm_num)
    exact ⟨⟨hw0, hm, rfl, rfl⟩, ⟨hm, hw1, rfl, rfl⟩⟩
  · obtain ⟨hw0, hw1, hw2, -, -⟩ := h
    have hm : 0 ≤ c.evaluate_width (1 / 2) :=
      bez2_ge hw0 hw1 hw2 (by norm_num) (by norm_num)
    have ha : 0 ≤ (c.w0 + c.w1) * (1 / 2 : K) := by nlinarith
    have hb : 0 ≤ (c.w1 + c.w2) * (1 / 2 : K) := by nlinarith
    exact ⟨⟨hw0, ha, hm, rfl, rfl⟩, ⟨hm, hb, hw2, rfl, rfl⟩⟩
  · obtain ⟨hw0, hw1, hw2, hw3, -, -⟩ := h
    have hm : 0 ≤ c.evaluate_width (1 / 2) :=
      bez3_ge hw0 hw1 hw2 hw3 (by norm_num) (by norm_num)
    have ha : 0 ≤ (c.w0 + c.w1) * (1 / 2 : K) := by nlinarith
    have hb : 0 ≤ (c.w1 + c.w2) * (1 / 2 : K) := by nlinarith
    have hc : 0 ≤ (c.w2 + c.w3) * (1 / 2 : K) := by nlinarith
    have hab : 0 ≤ ((c.w0 + c.w1) * (1 / 2 : K) + (c.w1 + c.w2) * (1 / 2)) * (1 / 2) := by
      nlinarith
    have hbc : 0 ≤ ((c.w1 + c.w2) * (1 / 2 : K) + (c.w2 + c.w3) * (1 / 2)) * (1 / 2) := by
      nlinarith
    exact ⟨⟨hw0, ha, hab, hm, rfl, rfl⟩, ⟨hm, hbc, hc, hw3, rfl, rfl⟩⟩

/-- Witness for C5: containment of the midpoint of a concrete rational
curve in its cached bounding box. -/
theorem C5_bbox_invariant_witness :
    (mkCurve1 (K := ℚ) ⟨0, 0, 0⟩ ⟨1, 1, 1⟩ 1 1).bbox.containsPoint
      ((mkCurve1 (K := ℚ) ⟨0, 0, 0⟩ ⟨1, 1, 1⟩ 1 1).evaluate_point (1 / 2)) :=
  C5_bbox_invariant.1.2.2.2 _ (1 / 2)
    (C5_bbox_invariant.1.1 ⟨0, 0, 0⟩ ⟨1, 1, 1⟩ 1 1 (by norm_num) (by norm_num))
    (by norm_num) (by norm_num)

/-- C3 (amended).  Base-case acceptance: in the depth-0 branch, once the
bounding cull, the two tangent gates and the degenerate-segment gate have
passed, converge decides exactly as base_case_decision: the candidate is
rejected when the transformed depth p.z is at most 1e-6 (not merely
non-positive) or strictly beyond the current best t, and otherwise
accepted exactly when the squared planar distance is below the squared
half width evaluated on the transformed sub-curve; on acceptance it
returns p.z as the new t. -/
theorem C3_base_case_acceptance {C : Type} (ops : CurveOps K C) (oc c : C)
    (xfm : Mat4 K) (v0 vn t : K)
    (hcull : ¬((ops.get_bbox c).min.z ≥ t ∨ (ops.get_bbox c).max.z ≤ 1 / 1000000 ∨
        (ops.get_bbox c).min.x ≥ ops.get_max_width c * (1 / 2) ∨
        (ops.get_bbox c).max.x ≤ -(ops.get_max_width c * (1 / 2)) ∨
        (ops.get_bbox c).min.y ≥ ops.get_max_width c * (1 / 2) ∨
        (ops.get_bbox c).max.y ≤ -(ops.get_max_width c * (1 / 2))))
    (hg1 : ¬dotxy (base_dp0 ops c) (ops.get_control_point c 0) > 0)
    (hg2 : ¬dotxy (base_dpn ops c) (ops.get_control_point c ops.degree) < 0)
    (hwd : ¬((ops.get_control_point c ops.degree - ops.get_control_point c 0).x *
          (ops.get_control_point c ops.degree - ops.get_control_point c 0).x +
        (ops.get_control_point c ops.degree - ops.get_control_point c 0).y *
          (ops.get_control_point c ops.degree - ops.get_control_point c 0).y
        < 1 / 1000000)) :
    converge ops 0 oc c xfm v0 vn t = base_case_decision ops oc c xfm v0 vn t := by
  simp only [base_dp0] at hg1
  simp only [base_dpn] at hg2
  simp only [converge, base_case_decision]
  rw [if_neg hcull, if_neg hg1, if_neg hg2, if_neg hwd]

/-- Witness for C3 at a concrete rational curve for which all four gates
pass and the candidate is accepted. -/
theorem C3_base_case_acceptance_witness :
    converge (K := ℚ) ops1 0 (mkCurve1 ⟨-1, 0, 5⟩ ⟨1, 0, 5⟩ (1 / 5) (1 / 5))
        (mkCurve1 ⟨-1, 0, 5⟩ ⟨1, 0, 5⟩ (1 / 5) (1 / 5)) idMat4 0 1 1000 =
      base_case_decision ops1 (mkCurve1 ⟨-1, 0, 5⟩ ⟨1, 0, 5⟩ (1 / 5) (1 / 5))
        (mkCurve1 ⟨-1, 0, 5⟩ ⟨1, 0, 5⟩ (1 / 5) (1 / 5)) idMat4 0 1 1000 :=
  C3_base_case_acceptance ops1 _ _ idMat4 0 1 1000
    (by
      simp only [ops1, mkCurve1, compute_max_width1, compute_bbox1, AABB3.insert,
        AABB3.grow, AABB3.robust_grow, bboxEps, Vec3.cmin, Vec3.cmax,
        Vec3.add_def, Vec3.sub_def]
      push_neg
      norm_num)
    (by
      simp only [base_dp0, ops1, mkCurve1, dotxy, Vec3.sub_def, Vec3.neg_def]
      norm_num)
    (by
      simp only [base_dpn, ops1, mkCurve1, dotxy, Vec3.sub_def, Vec3.neg_def]
      norm_num)
    (by
      simp only [ops1, mkCurve1, Vec3.sub_def]
      norm_num)

/-- Counterexample to C3 as stated: a degree-1 curve whose closest
approach to the ray axis sits at depth 5e-7, inside the open interval
(0, 1e-6].  The claim predicts acceptance (the depth is positive, closer
than the best t = 1000, and the axis passes through the tube) with a hit
at 5e-7, but the code rejects the candidate because the depth is not
greater than the epsilon 1e-6 and leaves t at 1000. -/
theorem C3_base_case_counterexample :
    converge (K := ℚ) ops1 0 (mkCurve1 ⟨-1, 0, 0⟩ ⟨1, 0, 1 / 1000000⟩ (1 / 5) (1 / 5))
        (mkCurve1 ⟨-1, 0, 0⟩ ⟨1, 0, 1 / 1000000⟩ (1 / 5) (1 / 5)) idMat4 0 1 1000
      = (false, 1000) ∧
    claimC3_base_case_decision (K := ℚ) ops1
        (mkCurve1 ⟨-1, 0, 0⟩ ⟨1, 0, 1 / 1000000⟩ (1 / 5) (1 / 5))
        (mkCurve1 ⟨-1, 0, 0⟩ ⟨1, 0, 1 / 1000000⟩ (1 / 5) (1 / 5)) idMat4 0 1 1000
      = (true, 1 / 2000000) := by
  constructor
  · simp only [converge, ops1, mkCurve1, compute_max_width1, compute_bbox1,
      AABB3.insert, AABB3.grow, AABB3.robust_grow, bboxEps, Vec3.cmin, Vec3.cmax,
      Vec3.add_def, Vec3.sub_def, Vec3.neg_def, idMat4, transform_point,
      BezierCurve1.evaluate_point, BezierCurve1.evaluate_width,
      interpolate_bezier1v, interpolate_bezier1, dotxy, saturate, clamp]
    norm_num [min_def, max_def]
  · simp only [claimC3_base_case_decision, ops1, mkCurve1, compute_max_width1,
      Vec3.sub_def, idMat4, transform_point,
      BezierCurve1.evaluate_point, BezierCurve1.evaluate_width,
      interpolate_bezier1v, interpolate_bezier1, dotxy, saturate, clamp]
    norm_num [min_def, max_def]

theorem transform_point_id (p : Vec3 K) : transform_point idMat4 p = p := by
  simp only [transform_point, idMat4]
  ext <;> (dsimp only) <;> ring_nf

/-- C2.  Canonical intersection: the degree-1 curve from (-1,0,5) to
(1,0,5) with constant width 0.2, against the ray from the origin along
(0,0,1) with the frame built by make_facing_curve_transform, intersects
with found = true and hit distance exactly 5 (well within the 1e-3
tolerance of the claim). -/
theorem C2_canonical_intersection :
    (intersect ops1 BezierCurve1.compute_max_recursion_depth
        (mkCurve1 ⟨-1, 0, 5⟩ ⟨1, 0, 5⟩ (1 / 5) (1 / 5))
        ⟨⟨0, 0, 0⟩, ⟨0, 0, 1⟩⟩
        (make_facing_curve_transform ⟨⟨0, 0, 0⟩, ⟨0, 0, 1⟩⟩) 1000).1 = true ∧
    |(intersect ops1 BezierCurve1.compute_max_recursion_depth
        (mkCurve1 ⟨-1, 0, 5⟩ ⟨1, 0, 5⟩ (1 / 5) (1 / 5))
        ⟨⟨0, 0, 0⟩, ⟨0, 0, 1⟩⟩
        (make_facing_curve_transform ⟨⟨0, 0, 0⟩, ⟨0, 0, 1⟩⟩) 1000).2 - 5|
      ≤ 1 / 1000 := by
  have hmat : make_facing_curve_transform ⟨⟨0, 0, 0⟩, ⟨0, 0, 1⟩⟩ = (idMat4 : Mat4 ℝ) := by
    simp only [make_facing_curve_transform, vnormalize, vnorm,
      apply_ray_translation, rotation_x, HalfPi, idMat4]
    norm_num [Real.sqrt_one]
  rw [hmat]
  simp only [intersect, ops1, BezierCurve1.xform, mkCurve1, transform_point, idMat4,
    BezierCurve1.compute_max_recursion_depth, converge, compute_max_width1,
    compute_bbox1, AABB3.insert, AABB3.grow, AABB3.robust_grow, bboxEps,
    Vec3.cmin, Vec3.cmax, Vec3.add_def, Vec3.sub_def, Vec3.neg_def,
    BezierCurve1.evaluate_point, BezierCurve1.evaluate_width,
    interpolate_bezier1v, interpolate_bezier1, dotxy, saturate, clamp, vnorm]
  norm_num [min_def, max_def, Real.sqrt_one]

/-- C8.  Degenerate-direction safety: whenever the x/z projection of the
normalized ray direction is shorter than 1e-6, make_facing_curve_transform
takes the fallback branch, a rotation about x by plus or minus half pi
with the sign of the direction y component, followed by the origin
translation, with no use of the near-zero projection length; and for the
fully degenerate direction (0,1,0) against the canonical curve, intersect
still returns the definite answer (false, t). -/
theorem C8_degenerate_direction :
    (∀ ray : Ray3 ℝ,
        Real.sqrt ((vnormalize ray.m_dir).x * (vnormalize ray.m_dir).x +
            (vnormalize ray.m_dir).z * (vnormalize ray.m_dir).z) < 1 / 1000000 →
        make_facing_curve_transform ray =
          apply_ray_translation
            (rotation_x (if (vnormalize ray.m_dir).y > 0 then HalfPi else -HalfPi))
            ray.m_org) ∧
    intersect ops1 BezierCurve1.compute_max_recursion_depth
        (mkCurve1 ⟨-1, 0, 5⟩ ⟨1, 0, 5⟩ (1 / 5) (1 / 5)) ⟨⟨0, 0, 0⟩, ⟨0, 1, 0⟩⟩
        (make_facing_curve_transform ⟨⟨0, 0, 0⟩, ⟨0, 1, 0⟩⟩) 1000 = (false, 1000) := by
  constructor
  · intro ray h
    simp only [make_facing_curve_transform]
    rw [if_neg (not_le.mpr h)]
  · have hmat : make_facing_curve_transform ⟨⟨0, 0, 0⟩, ⟨0, 1, 0⟩⟩
        = (⟨1, 0, 0, 0, 0, 0, -1, 0, 0, 1, 0, 0, 0, 0, 0, 1⟩ : Mat4 ℝ) := by
      simp only [make_facing_curve_transform, vnormalize, vnorm,
        apply_ray_translation, rotation_x, HalfPi]
      norm_num [Real.sqrt_one, Real.sqrt_zero, Real.cos_pi_div_two, Real.sin_pi_div_two]
    rw [hmat]
    simp only [intersect, ops1, BezierCurve1.xform, mkCurve1, transform_point,
      BezierCurve1.compute_max_recursion_depth, converge, compute_max_width1,
      compute_bbox1, AABB3.insert, AABB3.grow, AABB3.robust_grow, bboxEps,
      Vec3.cmin, Vec3.cmax, Vec3.add_def, Vec3.sub_def]
    norm_num [min_def, max_def]

/-- Witness for C8 at the degenerate direction (0,1,0), whose normalized
x/z projection length is exactly 0. -/
theorem C8_degenerate_direction_witness :
    make_facing_curve_transform ⟨⟨0, 0, 0⟩, ⟨0, 1, 0⟩⟩ =
      apply_ray_translation
        (rotation_x
          (if (vnormalize (⟨0, 1, 0⟩ : Vec3 ℝ)).y > 0 then HalfPi else -HalfPi))
        ⟨0, 0, 0⟩ :=
  C8_degenerate_direction.1 ⟨⟨0, 0, 0⟩, ⟨0, 1, 0⟩⟩ (by
    norm_num [vnormalize, vnorm, Real.sqrt_one, Real.sqrt_zero])

end Appleseed
